import Mathlib

/-
Verification of the first-run data-directory chooser (src/qt/intro.cpp).

The development shallowly embeds the three pieces of real logic in the file:
  - FreespaceChecker.check: the background filesystem probe (lines 53-90),
  - the single-slot request channel Intro::checkPath / Intro::getPathToCheck
    (lines 250-270),
  - Intro::setStatus, the UI-state derivation from a validation reply
    (lines 178-208),
  - Intro::pickDataDirectory, the startup orchestration (lines 137-176).

Filesystem, settings store, argument map and dialog interactions are external
collaborators; they enter as explicit model parameters (function-valued
structures and scripted dialog outcomes), so every definition is executable.
-/

namespace Num2Intro

/-- Byte-scale unit: static const uint64 GB_BYTES = 1000000000LL (intro.cpp line 12). -/
def GB_BYTES : Nat := 1000000000

/-- Minimum recommended free space: 10LL * GB_BYTES (intro.cpp line 13). -/
def BLOCK_CHAIN_SIZE : Nat := 10 * GB_BYTES

/-- The two reply statuses of FreespaceChecker (intro.cpp lines 31-34). -/
inductive Status where
  | ST_OK
  | ST_ERROR
deriving DecidableEq

/-- A filesystem path, modelled as its list of components (root first), as
decomposed by boost::filesystem::path. parent_path drops the last component;
has_parent_path holds when there are at least two components. -/
abbrev Path := List String

/-- boost path::has_parent_path: a path of fewer than two components
(empty path, bare root, or single relative component) has no parent. -/
def hasParentPath (p : Path) : Bool := decide (2 ≤ p.length)

/-- boost path::parent_path: drop the final component. -/
def parentPath (p : Path) : Path := p.dropLast

/-- Model of the filesystem seen by the worker. fs::exists is modelled as a
total predicate (it is called unguarded in the ancestor-walk loop, which the
code relies on not to throw); fs::space and fs::is_directory may throw inside
the try block, modelled by returning none. -/
structure FS where
  pathExists : Path → Bool
  spaceAvailable : Path → Option Nat
  isDirectory : Path → Option Bool

/-- Recursion kernel of the ancestor walk, structural on a step counter. Each
iteration strips one component, so p.length steps always suffice; the counter
exists only to make the definition structurally recursive and computable. -/
def findParentDirAux (fs : FS) : Nat → Path → Path
  | 0, p => p
  | fuel + 1, p =>
    if hasParentPath p && !fs.pathExists p then
      findParentDirAux fs fuel (parentPath p)
    else
      p

/-- The loop at intro.cpp lines 63-67: starting from the candidate path, climb
to the parent as long as the current path has a parent and does not exist. -/
def findParentDir (fs : FS) (p : Path) : Path :=
  findParentDirAux fs p.length p

/-- Recursion kernel of the chain of paths the ancestor walk can visit,
structural on the same step counter as findParentDirAux. -/
def ancestorChainAux : Nat → Path → List Path
  | 0, p => [p]
  | fuel + 1, p =>
    p :: (if hasParentPath p then ancestorChainAux fuel (parentPath p) else [])

/-- The chain of paths the ancestor walk can visit: the path itself followed by
the chains of its parents, ending at the first path with no parent. -/
def ancestorChain (p : Path) : List Path :=
  ancestorChainAux p.length p

/-- The native directory separator substituted into the hint message
(QDir::toNativeSeparators of a slash, on a POSIX build). -/
def separator : String := "/"

/-- Message of intro.cpp line 60. -/
def msgNewDataDir : String := "A new data directory will be created."

/-- Message of intro.cpp line 77, after argument substitution. -/
def msgDirExists : String :=
  "Directory already exists. Add <code>" ++ separator ++
    "name</code> if you intend to create a new directory here."

/-- Message of intro.cpp line 80. -/
def msgNotDirectory : String := "Path already exists, and is not a directory."

/-- Message of intro.cpp line 87, produced by the catch handler. -/
def msgCannotCreate : String := "Cannot create data directory here."

/-- The reply emitted by FreespaceChecker (intro.cpp line 40): status, message
and available byte count. -/
structure CheckReply where
  status : Status
  message : String
  available : Nat
deriving DecidableEq

/-- FreespaceChecker::check (intro.cpp lines 53-90) on an already-parsed path.
freeBytesAvailable starts at 0 and replyStatus/replyMessage start as the
OK/new-directory defaults; the ancestor walk finds the probe target; the try
block assigns freeBytesAvailable from fs::space and then classifies the
candidate path; a throw from fs::space or fs::is_directory jumps to the catch
handler with whatever freeBytesAvailable holds at that point. -/
def check (fs : FS) (dataDir : Path) : CheckReply :=
  let parentDir := findParentDir fs dataDir
  match fs.spaceAvailable parentDir with
  | none => ⟨Status.ST_ERROR, msgCannotCreate, 0⟩
  | some freeBytesAvailable =>
    if fs.pathExists dataDir then
      match fs.isDirectory dataDir with
      | some true => ⟨Status.ST_OK, msgDirExists, freeBytesAvailable⟩
      | some false => ⟨Status.ST_ERROR, msgNotDirectory, freeBytesAvailable⟩
      | none => ⟨Status.ST_ERROR, msgCannotCreate, freeBytesAvailable⟩
    else
      ⟨Status.ST_OK, msgNewDataDir, freeBytesAvailable⟩

/-- The shared slot of the Intro object: the path to check and the
"request already signalled" flag (guarded by the mutex in the code). -/
structure SlotState where
  pathToCheck : String
  signalled : Bool
deriving DecidableEq

/-- Intro::checkPath (intro.cpp lines 250-260): overwrite the slot with the
new path; if no check is signalled, set the flag and emit requestCheck.
Returns the new slot state and whether requestCheck was emitted. -/
def checkPath (s : SlotState) (dataDir : String) : SlotState × Bool :=
  let s1 : SlotState := { s with pathToCheck := dataDir }
  if s1.signalled then
    (s1, false)
  else
    ({ s1 with signalled := true }, true)

/-- Intro::getPathToCheck (intro.cpp lines 262-270): read the slot and clear
the signalled flag so a new request can be queued. Returns the path read and
the new slot state. -/
def getPathToCheck (s : SlotState) : String × SlotState :=
  (s.pathToCheck, { s with signalled := false })

/-- Run a sequence of successive checkPath calls (no intervening read by the
worker), returning the final slot state and the number of requestCheck
emissions. -/
def runCheckPaths (s : SlotState) (ps : List String) : SlotState × Nat :=
  match ps with
  | [] => (s, 0)
  | p :: rest =>
    let r1 := checkPath s p
    let r2 := runCheckPaths r1.1 rest
    (r2.1, (if r1.2 then 1 else 0) + r2.2)

/-- Stylesheet applied to warning and error labels (intro.cpp lines 188, 200). -/
def styleRed : String := "QLabel \x7b color: #800000 \x7d"

/-- The UI state touched by Intro::setStatus: the status label text and style,
the free-space label text and style, and whether the confirmation (Ok)
button is enabled. -/
structure UIState where
  errorMessageText : String
  errorMessageStyle : String
  freeSpaceText : String
  freeSpaceStyle : String
  okEnabled : Bool
deriving DecidableEq

/-- Intro::setStatus (intro.cpp lines 178-208): set the status label from the
status and message; on ERROR clear the free-space text (leaving its style
untouched), otherwise build the free-space summary, appending the needed-space
hint and warning style when below BLOCK_CHAIN_SIZE; finally enable the Ok
button exactly when the status is not ST_ERROR. -/
def setStatus (ui : UIState) (status : Status) (message : String)
    (bytesAvailable : Nat) : UIState :=
  let ui1 : UIState :=
    match status with
    | Status.ST_OK =>
      { ui with errorMessageText := message, errorMessageStyle := "" }
    | Status.ST_ERROR =>
      { ui with errorMessageText := "Error" ++ ": " ++ message,
                errorMessageStyle := styleRed }
  let ui2 : UIState :=
    if status = Status.ST_ERROR then
      { ui1 with freeSpaceText := "" }
    else
      let freeString := toString (bytesAvailable / GB_BYTES) ++
        "GB of free space available"
      if bytesAvailable < BLOCK_CHAIN_SIZE then
        { ui1 with
            freeSpaceText := freeString ++ " " ++
              ("(of " ++ toString (BLOCK_CHAIN_SIZE / GB_BYTES) ++ "GB needed)")
              ++ ".",
            freeSpaceStyle := styleRed }
      else
        { ui1 with freeSpaceText := freeString ++ ".", freeSpaceStyle := "" }
  { ui2 with okEnabled := decide (status ≠ Status.ST_ERROR) }

/-- A string-keyed store (the settings store and the argument map), as an
association list; lookup takes the first binding of a key. -/
abbrev Store := List (String × String)

/-- Write a value into a store (QSettings::setValue). -/
def setValue (st : Store) (key value : String) : Store := (key, value) :: st

/-- Modelled from the spec: GetArg, the command-line/config argument accessor
from the repository's util module (not under src/) — "query whether a
flag/option was supplied, with default". Returns the supplied value, or the
default when the option is absent. -/
def GetArg (args : Store) (key dflt : String) : String :=
  match args.lookup key with
  | some v => v
  | none => dflt

/-- Modelled from the spec: GetBoolArg, the boolean form of the accessor —
"query whether a flag/option was supplied, with default". -/
def GetBoolArg (args : Store) (key : String) (dflt : Bool) : Bool :=
  match args.lookup key with
  | some _ => true
  | none => dflt

/-- Modelled from the spec: SoftSetArg, which writes a value "under the
-datadir key, but only if not already explicitly set (never overrides an
explicit CLI-provided value)". -/
def SoftSetArg (args : Store) (key value : String) : Store :=
  match args.lookup key with
  | some _ => args
  | none => setValue args key value

/-- The environment pickDataDirectory runs in: the argument map, the settings
store, the OS default data directory, an existence probe for the settings
check, native directory creation (false models a filesystem_error throw), and
the scripted outcomes of successive dialog executions — none is a rejected
dialog (Cancel), some d is an accepted dialog whose entered directory is d. -/
structure PickEnv where
  args : Store
  settings : Store
  defaultDataDir : String
  fsExists : String → Bool
  createDirectory : String → Bool
  dialogScript : List (Option String)

/-- Outcome of the dialog retry loop. -/
inductive LoopResult where
  | cancelled (dialogs : Nat)
  | chose (dataDir : String) (dialogs : Nat)
  | scriptEnded (dialogs : Nat)
deriving DecidableEq

/-- The while(true) loop of intro.cpp lines 155-171: run the dialog; a
rejection exits; on acceptance try to create the entered directory, breaking
out on success and re-prompting when creation throws. scriptEnded records that
the scripted interactions ran out while the loop still wanted another. -/
def pickLoop (createDirectory : String → Bool) :
    List (Option String) → LoopResult
  | [] => LoopResult.scriptEnded 0
  | none :: _ => LoopResult.cancelled 1
  | some d :: rest =>
    if createDirectory d then
      LoopResult.chose d 1
    else
      match pickLoop createDirectory rest with
      | LoopResult.cancelled n => LoopResult.cancelled (n + 1)
      | LoopResult.chose d' n => LoopResult.chose d' (n + 1)
      | LoopResult.scriptEnded n => LoopResult.scriptEnded (n + 1)

/-- The observable outcome of Intro::pickDataDirectory: whether exit() was
called (and with which code), the final settings store and argument map, how
many dialogs were shown, which directories were created, and whether the
dialog script was exhausted. -/
structure PickOutcome where
  exited : Option Nat
  settings : Store
  args : Store
  dialogsShown : Nat
  createdDirs : List String
  outOfScript : Bool
deriving DecidableEq

/-- Steps 1-2 of Intro::pickDataDirectory (intro.cpp lines 145-148): the
default data directory for the operating system, overridden by the persisted
strDataDir setting when present. -/
def resolvedDataDir (env : PickEnv) : String :=
  match env.settings.lookup "strDataDir" with
  | some v => v
  | none => env.defaultDataDir

/-- Intro::pickDataDirectory (intro.cpp lines 137-176). If -datadir was
supplied non-empty, return at once. Otherwise resolve the default directory,
let the settings override it, and when it does not exist (or -choosedatadir
was given) run the dialog loop: cancellation exits the process with code 0;
a successful creation persists the choice to settings. Finally the resolved
directory is soft-set as -datadir. -/
def pickDataDirectory (env : PickEnv) : PickOutcome :=
  if GetArg env.args "-datadir" "" ≠ "" then
    { exited := none, settings := env.settings, args := env.args,
      dialogsShown := 0, createdDirs := [], outOfScript := false }
  else
    if !env.fsExists (resolvedDataDir env)
        || GetBoolArg env.args "-choosedatadir" false then
      match pickLoop env.createDirectory env.dialogScript with
      | LoopResult.cancelled n =>
        { exited := some 0, settings := env.settings, args := env.args,
          dialogsShown := n, createdDirs := [], outOfScript := false }
      | LoopResult.chose d n =>
        { exited := none, settings := setValue env.settings "strDataDir" d,
          args := SoftSetArg env.args "-datadir" d,
          dialogsShown := n, createdDirs := [d], outOfScript := false }
      | LoopResult.scriptEnded n =>
        { exited := none, settings := env.settings, args := env.args,
          dialogsShown := n, createdDirs := [], outOfScript := true }
    else
      { exited := none, settings := env.settings,
        args := SoftSetArg env.args "-datadir" (resolvedDataDir env),
        dialogsShown := 0, createdDirs := [], outOfScript := false }

/-- Concrete candidate path used by witnesses: an absolute two-component
path, as boost decomposes the string chosen in the dialog. -/
def samplePath : Path := [separator, "data"]

/-- Concrete filesystem in which samplePath is an existing directory. -/
def fsDir : FS where
  pathExists := fun _ => true
  spaceAvailable := fun _ => some 20000000000
  isDirectory := fun _ => some true

/-- Concrete filesystem in which samplePath exists but is a regular file. -/
def fsFile : FS where
  pathExists := fun _ => true
  spaceAvailable := fun _ => some 7
  isDirectory := fun _ => some false

/-- Concrete filesystem in which samplePath does not exist but its root
ancestor is probeable with 5,000,000,000 bytes free. -/
def fsFresh : FS where
  pathExists := fun p => decide (p = [separator])
  spaceAvailable := fun _ => some 5000000000
  isDirectory := fun _ => some false

/-- Concrete filesystem in which the space query succeeds (5 bytes) and the
directory test then throws. -/
def fsLateThrow : FS where
  pathExists := fun _ => true
  spaceAvailable := fun _ => some 5
  isDirectory := fun _ => none

/-- Concrete filesystem in which the space query itself throws. -/
def fsSpaceThrow : FS where
  pathExists := fun _ => false
  spaceAvailable := fun _ => none
  isDirectory := fun _ => some true

/-- Concrete environment in which -datadir was supplied on the command line. -/
def envDatadirArg : PickEnv where
  args := [("-datadir", "/mnt/data")]
  settings := [("strDataDir", "/old/dir")]
  defaultDataDir := "/home/user/.num2coin"
  fsExists := fun _ => false
  createDirectory := fun _ => true
  dialogScript := [some "/choice"]

/-- Concrete environment with no -datadir argument and an existing default
directory, so no dialog runs. -/
def envDefaultExists : PickEnv where
  args := []
  settings := []
  defaultDataDir := "/home/user/.num2coin"
  fsExists := fun _ => true
  createDirectory := fun _ => true
  dialogScript := []

/-- Concrete environment with no -datadir argument and a missing default
directory, in which the first dialog choice is created successfully. -/
def envChoose : PickEnv where
  args := []
  settings := []
  defaultDataDir := "/home/user/.num2coin"
  fsExists := fun _ => false
  createDirectory := fun _ => true
  dialogScript := [some "/fresh/dir"]

/-- Concrete environment in which the first dialog choice cannot be created
and the user then cancels the second dialog. -/
def envCancel : PickEnv where
  args := []
  settings := []
  defaultDataDir := "/home/user/.num2coin"
  fsExists := fun _ => false
  createDirectory := fun _ => false
  dialogScript := [some "/ro/dir", none]

end Num2Intro

namespace Num2Intro

/-- The loop equation of findParentDir, exactly the while loop of the source:
climb to the parent when the path has one and does not exist, else stop. -/
theorem findParentDir_eq (fs : FS) (p : Path) :
    findParentDir fs p =
      if hasParentPath p && !fs.pathExists p then
        findParentDir fs (parentPath p)
      else
        p := by
  unfold findParentDir
  cases hl : p.length with
  | zero =>
    have hpar : hasParentPath p = false := by
      simp [hasParentPath, hl]
    simp [findParentDirAux, hpar]
  | succ n =>
    have hdl : (parentPath p).length = n := by
      simp [parentPath, List.length_dropLast, hl]
    rw [hdl]
    rfl

/-- Unfolding equation of ancestorChain. -/
theorem ancestorChain_eq (p : Path) :
    ancestorChain p =
      p :: (if hasParentPath p then ancestorChain (parentPath p) else []) := by
  unfold ancestorChain
  cases hl : p.length with
  | zero =>
    have hpar : hasParentPath p = false := by
      simp [hasParentPath, hl]
    simp [ancestorChainAux, hpar]
  | succ n =>
    have hdl : (parentPath p).length = n := by
      simp [parentPath, List.length_dropLast, hl]
    rw [hdl]
    rfl

/-- C5: the shared slot keeps the invariant that at most one validation
request is in flight: checkPath always overwrites the slot and leaves the
flag set, but dispatches (emits requestCheck) exactly when the flag was
clear — in particular a second checkPath before any read never dispatches;
getPathToCheck returns the slot and clears the flag, after which a new
checkPath dispatches again. -/
theorem slot_single_flight (s : SlotState) (d d' : String) :
    (checkPath s d).2 = !s.signalled
    ∧ (checkPath s d).1.pathToCheck = d
    ∧ (checkPath s d).1.signalled = true
    ∧ (checkPath (checkPath s d).1 d').2 = false
    ∧ (getPathToCheck s).1 = s.pathToCheck
    ∧ (getPathToCheck s).2.pathToCheck = s.pathToCheck
    ∧ (getPathToCheck s).2.signalled = false
    ∧ (checkPath (getPathToCheck s).2 d').2 = true := by
  cases s with
  | mk p sig => cases sig <;> simp [checkPath, getPathToCheck]

/-- C6: setStatus disables the confirmation (Ok) button on every ERROR reply
and enables it on every OK reply, regardless of the reported byte count. -/
theorem setStatus_ok_button (ui : UIState) (message : String) (bytes : Nat) :
    (setStatus ui Status.ST_ERROR message bytes).okEnabled = false
    ∧ (setStatus ui Status.ST_OK message bytes).okEnabled = true := by
  constructor <;> simp [setStatus]

/-- C7: with GB_BYTES fixed at 1,000,000,000 and BLOCK_CHAIN_SIZE at ten
times that, an OK reply below the threshold gets the warning stylesheet and
the needed-space suffix on the free-space label while the Ok button stays
enabled; at or above the threshold the free-space label carries no warning
styling. -/
theorem setStatus_space_warning (ui : UIState) (message : String)
    (bytes : Nat) :
    GB_BYTES = 1000000000
    ∧ BLOCK_CHAIN_SIZE = 10 * GB_BYTES
    ∧ (setStatus ui Status.ST_OK message bytes).okEnabled = true
    ∧ (setStatus ui Status.ST_OK message bytes).freeSpaceStyle =
        (if bytes < BLOCK_CHAIN_SIZE then styleRed else "")
    ∧ (setStatus ui Status.ST_OK message bytes).freeSpaceText =
        (if bytes < BLOCK_CHAIN_SIZE then
          toString (bytes / GB_BYTES) ++ "GB of free space available" ++ " " ++
            ("(of " ++ toString (BLOCK_CHAIN_SIZE / GB_BYTES) ++ "GB needed)")
            ++ "."
        else
          toString (bytes / GB_BYTES) ++ "GB of free space available" ++ ".") := by
  refine ⟨rfl, rfl, by simp [setStatus], ?_, ?_⟩ <;>
    by_cases h : bytes < BLOCK_CHAIN_SIZE <;> simp [setStatus, h]

/-- C10: on every ERROR reply, setStatus clears the free-space label text, so
no byte figure is shown together with an error message. -/
theorem setStatus_error_clears_freespace (ui : UIState) (message : String)
    (bytes : Nat) :
    (setStatus ui Status.ST_ERROR message bytes).freeSpaceText = "" := by
  simp [setStatus]

/-- C2: when the probes succeed, check classifies the candidate path three
ways: an existing directory gives OK with the append-a-subdirectory hint; an
existing non-directory gives ERROR with "Path already exists, and is not a
directory."; a non-existing path gives OK with "A new data directory will be
created." and the probed ancestor's free space. -/
theorem check_classification (fs : FS) (dataDir : Path) (v : Nat)
    (hs : fs.spaceAvailable (findParentDir fs dataDir) = some v) :
    (fs.pathExists dataDir = true → fs.isDirectory dataDir = some true →
      check fs dataDir = ⟨Status.ST_OK, msgDirExists, v⟩)
    ∧ (fs.pathExists dataDir = true → fs.isDirectory dataDir = some false →
      check fs dataDir = ⟨Status.ST_ERROR, msgNotDirectory, v⟩)
    ∧ (fs.pathExists dataDir = false →
      check fs dataDir = ⟨Status.ST_OK, msgNewDataDir, v⟩) := by
  refine ⟨fun h1 h2 => ?_, fun h1 h2 => ?_, fun h1 => ?_⟩ <;>
    simp [check, hs, h1]
  · simp [h2]
  · simp [h2]

/-- Witness for check_classification at the three concrete filesystems. -/
theorem check_classification_witness :
    check fsDir samplePath = ⟨Status.ST_OK, msgDirExists, 20000000000⟩
    ∧ check fsFile samplePath = ⟨Status.ST_ERROR, msgNotDirectory, 7⟩
    ∧ check fsFresh samplePath = ⟨Status.ST_OK, msgNewDataDir, 5000000000⟩ :=
  ⟨(check_classification fsDir samplePath 20000000000 rfl).1 rfl rfl,
   (check_classification fsFile samplePath 7 rfl).2.1 rfl rfl,
   (check_classification fsFresh samplePath 5000000000 rfl).2.2 rfl⟩

/-- The ancestor-chain characterization of the walk: over any chain prefix
long enough to include the whole walk, the first path that exists or lacks a
parent is exactly where the walk stops. -/
theorem findParentDirAux_find? (fs : FS) :
    ∀ (fuel : Nat) (p : Path), p.length ≤ fuel + 1 →
      (ancestorChainAux fuel p).find?
          (fun q => fs.pathExists q || !hasParentPath q)
        = some (findParentDirAux fs fuel p) := by
  intro fuel
  induction fuel with
  | zero =>
    intro p hp
    have hpar : hasParentPath p = false := by
      simp only [hasParentPath, decide_eq_false_iff_not]
      omega
    simp [ancestorChainAux, findParentDirAux, hpar]
  | succ n ih =>
    intro p hp
    cases hpar : hasParentPath p with
    | false => simp [ancestorChainAux, findParentDirAux, hpar]
    | true =>
      cases hex : fs.pathExists p with
      | true => simp [ancestorChainAux, findParentDirAux, hpar, hex]
      | false =>
        have hlen : (parentPath p).length ≤ n + 1 := by
          simp only [parentPath, List.length_dropLast]
          omega
        simp [ancestorChainAux, findParentDirAux, hpar, hex,
          ih (parentPath p) hlen]

/-- C3: the walk stops at the first element of the ancestor chain that exists
or has no parent, and the available figure check reports is the free space
queried at that ancestor (0 when the query throws), never at the candidate
path itself. -/
theorem check_reports_ancestor_space (fs : FS) (p : Path) :
    (ancestorChain p).find? (fun q => fs.pathExists q || !hasParentPath q)
      = some (findParentDir fs p)
    ∧ (check fs p).available
      = (fs.spaceAvailable (findParentDir fs p)).getD 0 := by
  constructor
  · exact findParentDirAux_find? fs p.length p (by omega)
  · cases hs : fs.spaceAvailable (findParentDir fs p) with
    | none => simp [check, hs]
    | some v =>
      cases hpe : fs.pathExists p with
      | false => simp [check, hs, hpe]
      | true =>
        cases hid : fs.isDirectory p with
        | none => simp [check, hs, hpe, hid]
        | some b => cases b <;> simp [check, hs, hpe, hid]

/-- C4 (amended): a throw of the space query yields ERROR, "Cannot create
data directory here." and zero bytes; a throw of the directory test after a
successful space query yields the same status and message but keeps the
already-queried byte count. Either way check returns a reply. -/
theorem check_probe_failure (fs : FS) (p : Path) :
    (fs.spaceAvailable (findParentDir fs p) = none →
      check fs p = ⟨Status.ST_ERROR, msgCannotCreate, 0⟩)
    ∧ (∀ v, fs.spaceAvailable (findParentDir fs p) = some v →
      fs.pathExists p = true → fs.isDirectory p = none →
      check fs p = ⟨Status.ST_ERROR, msgCannotCreate, v⟩) := by
  constructor
  · intro hs
    simp [check, hs]
  · intro v hs hpe hid
    simp [check, hs, hpe, hid]

/-- Counterexample to C4 as stated: when the space query succeeds with 5
bytes and the directory test then throws, the emitted reply has status ERROR
and the expected message but carries the 5 already-queried bytes, not zero. -/
theorem check_late_throw_keeps_bytes :
    fsLateThrow.spaceAvailable (findParentDir fsLateThrow samplePath) = some 5
    ∧ fsLateThrow.pathExists samplePath = true
    ∧ fsLateThrow.isDirectory samplePath = none
    ∧ check fsLateThrow samplePath = ⟨Status.ST_ERROR, msgCannotCreate, 5⟩
    ∧ (check fsLateThrow samplePath).available ≠ 0 :=
  ⟨rfl, rfl, rfl, rfl, by decide⟩

/-- Witness for check_probe_failure: a late throw keeps the queried bytes, a
space-query throw reports zero. -/
theorem check_probe_failure_witness :
    check fsLateThrow samplePath = ⟨Status.ST_ERROR, msgCannotCreate, 5⟩
    ∧ check fsSpaceThrow samplePath = ⟨Status.ST_ERROR, msgCannotCreate, 0⟩ :=
  ⟨(check_probe_failure fsLateThrow samplePath).2 5 rfl rfl rfl,
   (check_probe_failure fsSpaceThrow samplePath).1 rfl⟩

/-- Once a check is signalled, further checkPath calls emit nothing, keep the
flag set, and leave the slot holding the last path written. -/
theorem runCheckPaths_signalled (ps : List String) :
    ∀ s : SlotState, s.signalled = true →
      (runCheckPaths s ps).2 = 0
      ∧ (runCheckPaths s ps).1.pathToCheck = ps.getLastD s.pathToCheck
      ∧ (runCheckPaths s ps).1.signalled = true := by
  induction ps with
  | nil =>
    intro s hsig
    exact ⟨rfl, rfl, hsig⟩
  | cons p rest ih =>
    intro s hsig
    have hstep : checkPath s p = ({ s with pathToCheck := p }, false) := by
      simp [checkPath, hsig]
    obtain ⟨hc, hp, hf⟩ := ih { s with pathToCheck := p } (by simp [hsig])
    refine ⟨?_, ?_, ?_⟩
    · simp [runCheckPaths, hstep, hc]
    · simp only [runCheckPaths, hstep]
      rw [List.getLastD_cons]
      exact hp
    · simp [runCheckPaths, hstep, hf]

/-- C1: from a quiescent slot (no check signalled), any nonempty burst of
successive checkPath calls with no intervening read emits requestCheck
exactly once, and the getPathToCheck that follows returns the last path of
the burst, never an intermediate one. -/
theorem checkPath_coalesces (s : SlotState) (ps : List String)
    (hsig : s.signalled = false) (hne : ps ≠ []) :
    (runCheckPaths s ps).2 = 1
    ∧ (getPathToCheck (runCheckPaths s ps).1).1 = ps.getLast hne := by
  cases ps with
  | nil => exact absurd rfl hne
  | cons p rest =>
    have hstep : checkPath s p = ({ pathToCheck := p, signalled := true }, true) := by
      simp [checkPath, hsig]
    obtain ⟨hc, hp, _⟩ :=
      runCheckPaths_signalled rest { pathToCheck := p, signalled := true } rfl
    constructor
    · simp [runCheckPaths, hstep, hc]
    · rw [List.getLast_eq_getLastD]
      simp [runCheckPaths, getPathToCheck, hstep, hp]

/-- Witness for checkPath_coalesces: three rapid path writes from the fresh
slot dispatch once and the read sees the third path. -/
theorem checkPath_coalesces_witness :
    (runCheckPaths ⟨"", false⟩ ["P1", "P2", "P3"]).2 = 1
    ∧ (getPathToCheck (runCheckPaths ⟨"", false⟩ ["P1", "P2", "P3"]).1).1
      = "P3" :=
  checkPath_coalesces ⟨"", false⟩ ["P1", "P2", "P3"] rfl (by decide)

/-- C8: a non-empty -datadir argument makes pickDataDirectory return at once,
leaving settings, arguments and dialog count untouched; otherwise the
resolved directory itself is written under -datadir through SoftSetArg —
the settings-overridden default when no dialog runs, and the directory the
dialog loop chose (the one created and persisted to strDataDir) when it
does; and SoftSetArg never overrides a key that is already set. -/
theorem pickDataDirectory_datadir_arg (env : PickEnv) :
    (GetArg env.args "-datadir" "" ≠ "" →
      pickDataDirectory env =
        { exited := none, settings := env.settings, args := env.args,
          dialogsShown := 0, createdDirs := [], outOfScript := false })
    ∧ (GetArg env.args "-datadir" "" = "" →
      ((!env.fsExists (resolvedDataDir env)
          || GetBoolArg env.args "-choosedatadir" false) = false →
        pickDataDirectory env =
          { exited := none, settings := env.settings,
            args := SoftSetArg env.args "-datadir" (resolvedDataDir env),
            dialogsShown := 0, createdDirs := [], outOfScript := false })
      ∧ (∀ d n,
        (!env.fsExists (resolvedDataDir env)
          || GetBoolArg env.args "-choosedatadir" false) = true →
        pickLoop env.createDirectory env.dialogScript = LoopResult.chose d n →
        pickDataDirectory env =
          { exited := none,
            settings := setValue env.settings "strDataDir" d,
            args := SoftSetArg env.args "-datadir" d,
            dialogsShown := n, createdDirs := [d], outOfScript := false }))
    ∧ (∀ key v w, env.args.lookup key = some w →
      SoftSetArg env.args key v = env.args) := by
  refine ⟨fun h => by simp [pickDataDirectory, h], fun hd => ⟨?_, ?_⟩, ?_⟩
  · intro hfe
    simp [pickDataDirectory, hd, hfe]
  · intro d n hfe hloop
    simp [pickDataDirectory, hd, hfe, hloop]
  · intro key v w h
    simp [SoftSetArg, h]

/-- Witness for pickDataDirectory_datadir_arg: with -datadir supplied the
run is a no-op; with the default directory present the resolved default is
soft-set; with it absent the dialog's chosen directory is created, persisted
and soft-set; SoftSetArg keeps an already-supplied value. -/
theorem pickDataDirectory_datadir_arg_witness :
    pickDataDirectory envDatadirArg =
      { exited := none, settings := envDatadirArg.settings,
        args := envDatadirArg.args, dialogsShown := 0, createdDirs := [],
        outOfScript := false }
    ∧ pickDataDirectory envDefaultExists =
      { exited := none, settings := envDefaultExists.settings,
        args := SoftSetArg envDefaultExists.args "-datadir"
          (resolvedDataDir envDefaultExists),
        dialogsShown := 0, createdDirs := [], outOfScript := false }
    ∧ pickDataDirectory envChoose =
      { exited := none,
        settings := setValue envChoose.settings "strDataDir" "/fresh/dir",
        args := SoftSetArg envChoose.args "-datadir" "/fresh/dir",
        dialogsShown := 1, createdDirs := ["/fresh/dir"],
        outOfScript := false }
    ∧ SoftSetArg envDatadirArg.args "-datadir" "/other"
      = envDatadirArg.args :=
  ⟨(pickDataDirectory_datadir_arg envDatadirArg).1 (by decide),
   ((pickDataDirectory_datadir_arg envDefaultExists).2.1 rfl).1 rfl,
   ((pickDataDirectory_datadir_arg envChoose).2.1 rfl).2 "/fresh/dir" 1
     rfl rfl,
   (pickDataDirectory_datadir_arg envDatadirArg).2.2 "-datadir" "/other"
     "/mnt/data" rfl⟩

/-- C9: whenever pickDataDirectory calls exit, the code is 0 and at that
point the settings store and the argument map are untouched and no directory
has been created. -/
theorem pickDataDirectory_cancel_exit (env : PickEnv) (c : Nat)
    (h : (pickDataDirectory env).exited = some c) :
    c = 0
    ∧ (pickDataDirectory env).settings = env.settings
    ∧ (pickDataDirectory env).args = env.args
    ∧ (pickDataDirectory env).createdDirs = [] := by
  by_cases hd : GetArg env.args "-datadir" "" = ""
  · cases hfe : (!env.fsExists (resolvedDataDir env)
        || GetBoolArg env.args "-choosedatadir" false) with
    | false => simp [pickDataDirectory, hd, hfe] at h
    | true =>
      cases hloop : pickLoop env.createDirectory env.dialogScript with
      | cancelled n =>
        have hc : c = 0 := by
          have := h
          simp [pickDataDirectory, hd, hfe, hloop] at this
          omega
        exact ⟨hc, by simp [pickDataDirectory, hd, hfe, hloop]⟩
      | chose d n => simp [pickDataDirectory, hd, hfe, hloop] at h
      | scriptEnded n => simp [pickDataDirectory, hd, hfe, hloop] at h
  · simp [pickDataDirectory, hd] at h

/-- Witness for pickDataDirectory_cancel_exit: a failed creation followed by
a cancelled dialog exits with code 0 and persists nothing. -/
theorem pickDataDirectory_cancel_exit_witness :
    (pickDataDirectory envCancel).exited = some 0
    ∧ (0 = 0
      ∧ (pickDataDirectory envCancel).settings = envCancel.settings
      ∧ (pickDataDirectory envCancel).args = envCancel.args
      ∧ (pickDataDirectory envCancel).createdDirs = []) :=
  ⟨rfl, pickDataDirectory_cancel_exit envCancel 0 rfl⟩

end Num2Intro
